import Mathlib

/-!
Verification of the student-grading pipeline
(`src/examples/batch-processing/student-grading-automation.py`).

The Python source is shallowly embedded below: dataclasses become
structures, Python dicts become association lists over `String` keys,
floats become `ℚ`, and fallible code returns `Except String`.
-/

set_option maxHeartbeats 4000000

namespace GradingPipeline

/-- Association-list lookup, modelling Python dict access (`k in d` / `d[k]`);
a Python dict has unique keys, so first-match lookup is exact. -/
def lookupKey {α : Type} (d : List (String × α)) (k : String) : Option α :=
  match d with
  | [] => none
  | p :: rest => if p.1 == k then some p.2 else lookupKey rest k

/-- Models `criteria_weights.get(criterion, 0)` in `calculate_grade`. -/
def dictGet (d : List (String × ℚ)) (k : String) : ℚ :=
  match lookupKey d k with
  | some v => v
  | none => 0

/-- Models Python dict assignment `d[k] = v`: the value of an existing key is
replaced in place (a Python dict has unique keys, and assignment keeps the
key's insertion position); a new key is appended at the end. -/
def setKey {α : Type} (d : List (String × α)) (k : String) (v : α) :
    List (String × α) :=
  match d with
  | [] => [(k, v)]
  | p :: rest => if p.1 == k then (p.1, v) :: rest else p :: setKey rest k v

/-- The `StudentSubmission` dataclass.  `submission_time` is an abstract
timestamp: the pipeline only threads it through without computing on it. -/
structure StudentSubmission where
  student_id : String
  student_name : String
  submission_path : String
  submission_time : Option Nat
  late_submission : Bool

/-- The `AIDetectionResult` dataclass. -/
structure AIDetectionResult where
  is_ai_generated : Bool
  confidence_score : ℚ
  risk_level : String
  patterns_detected : Nat
  high_confidence_patterns : Nat
  analysis_time : Nat
  warnings : List String

/-- The `GradingResult` dataclass. -/
structure GradingResult where
  student_id : String
  student_name : String
  ai_detection : Option AIDetectionResult
  overall_score : ℚ
  grade_letter : String
  criteria_scores : List (String × ℚ)
  feedback : String
  requires_manual_review : Bool
  academic_integrity_flag : Bool

/-- The configuration leaves read by the pipeline, flattened from the nested
`default_config` dictionary of `_load_config`. -/
structure Config where
  detection_enabled : Bool
  detection_threshold : ℚ
  analyzers : String
  fail_on_detection : Bool
  include_in_report : Bool
  grading_system : String
  max_score : ℚ
  passing_threshold : ℚ
  criteria : List (String × ℚ)
  title : String
  difficulty : String
  assignment_type : String
  late_penalty : ℚ
  parallel_workers : Nat
  timeout_seconds : Nat
  results_dir : String
  reports_dir : String
  individual_feedback : Bool
  summary_report : Bool
  csv_export : Bool

/-- The hard-coded `default_config` of `_load_config`. -/
def defaultConfig : Config where
  detection_enabled := true
  detection_threshold := 3/4
  analyzers := "git,documentation"
  fail_on_detection := false
  include_in_report := true
  grading_system := "letter"
  max_score := 100
  passing_threshold := 70
  criteria :=
    [("correctness", 40), ("code_quality", 25), ("documentation", 15),
     ("testing", 10), ("creativity", 10)]
  title := "Programming Assignment"
  difficulty := "mid"
  assignment_type := "take-home"
  late_penalty := 10
  parallel_workers := 4
  timeout_seconds := 300
  results_dir := "./grading-results"
  reports_dir := "./grading-reports"
  individual_feedback := true
  summary_report := true
  csv_export := true

/-- The fixed `base_scores` dictionary of `calculate_grade`. -/
def baseScoresInit : List (String × ℚ) :=
  [("correctness", 85), ("code_quality", 78), ("documentation", 90),
   ("testing", 75), ("creativity", 80)]

/-- `calculate_grade` sets `academic_integrity_flag` and
`requires_manual_review` to the same value: whether a detection result is
present with `is_ai_generated` true. -/
def integrityFlagged (aiResult : Option AIDetectionResult) : Bool :=
  match aiResult with
  | some r => r.is_ai_generated
  | none => false

/-- The AI-detection penalty block of `calculate_grade`: on a flagged result,
either zero every base score (`fail_on_detection`) or scale every base score
by `(1 - min(0.5, confidence_score))`. -/
def detectionAdjustedScores (failOnDetection : Bool)
    (aiResult : Option AIDetectionResult) : List (String × ℚ) :=
  match aiResult with
  | some r =>
    if r.is_ai_generated then
      if failOnDetection then
        baseScoresInit.map (fun p => (p.1, 0))
      else
        baseScoresInit.map
          (fun p => (p.1, p.2 * (1 - min (1/2 : ℚ) r.confidence_score)))
    else baseScoresInit
  | none => baseScoresInit

/-- The late-penalty block of `calculate_grade`: scale every (possibly
already penalized) score by `(1 - late_penalty / 100)`. -/
def lateAdjustedScores (latePenalty : ℚ) (isLate : Bool)
    (scores : List (String × ℚ)) : List (String × ℚ) :=
  if isLate then scores.map (fun p => (p.1, p.2 * (1 - latePenalty / 100)))
  else scores

/-- `_score_to_letter_grade`. -/
def scoreToLetterGrade (score : ℚ) : String :=
  if score ≥ 97 then "A+"
  else if score ≥ 93 then "A"
  else if score ≥ 90 then "A-"
  else if score ≥ 87 then "B+"
  else if score ≥ 83 then "B"
  else if score ≥ 80 then "B-"
  else if score ≥ 77 then "C+"
  else if score ≥ 73 then "C"
  else if score ≥ 70 then "C-"
  else if score ≥ 67 then "D+"
  else if score ≥ 63 then "D"
  else if score ≥ 60 then "D-"
  else "F"

/-- Python's `str.title()` as used on criterion names in `_generate_feedback`:
an alphabetic character is uppercased when the preceding character is
non-alphabetic, lowercased otherwise. -/
def titleCase (s : String) : String :=
  (s.toList.foldl
    (fun acc c =>
      let out := if c.isAlpha then (if acc.2 then c.toLower else c.toUpper) else c
      (acc.1 ++ [out], c.isAlpha))
    (([] : List Char), false)).1.asString

/-- Rendering of a numeric value inside feedback text.  The Python source
formats floats with `:.1f`; the decimal rendering itself is abstracted here
(no claim depends on the rendered digits), the surrounding text is kept. -/
def fmtScore (q : ℚ) : String := toString q

/-- The tiered recommendation line of `_generate_feedback`. -/
def recommendationLine (overall : ℚ) : String :=
  if overall ≥ 90 then "- Excellent work! Continue practicing these skills."
  else if overall ≥ 80 then "- Good work! Focus on code quality and documentation."
  else if overall ≥ 70 then "- Passing grade. Review feedback and improve weak areas."
  else "- Below passing. Please review course materials and seek help."

/-- `_generate_feedback`: the feedback lines, joined with newlines. -/
def generateFeedback (cfg : Config) (sub : StudentSubmission)
    (aiResult : Option AIDetectionResult) (scores : List (String × ℚ))
    (overall : ℚ) : String :=
  let head := ["Overall Score: " ++ fmtScore overall ++ "/100", "",
               "Detailed Breakdown:"]
    ++ scores.map (fun p => "- " ++ titleCase p.1 ++ ": " ++ fmtScore p.2 ++ "/100")
    ++ [""]
  let withDetection := head ++
    (match aiResult with
     | some r =>
       if r.is_ai_generated then
         ["ACADEMIC INTEGRITY ALERT:",
          "AI-generated content detected (confidence: "
            ++ fmtScore r.confidence_score ++ ")",
          "Risk level: " ++ r.risk_level,
          "This submission requires manual review and discussion.", ""]
       else ["Academic integrity check passed", ""]
     | none => [])
  let withLate := withDetection ++
    (if sub.late_submission then
       ["Late submission penalty applied: -" ++ fmtScore cfg.late_penalty ++ "%", ""]
     else [])
  let withRec := withLate ++ ["Recommendations:", recommendationLine overall]
  let allParts := withRec ++
    (match aiResult with
     | some r =>
       if r.is_ai_generated then
         ["- Schedule meeting to discuss academic integrity policies.",
          "- Complete assignment independently for full credit."]
       else []
     | none => [])
  String.intercalate "\n" allParts

/-- `calculate_grade`.  The division by `total_weight` raises
`ZeroDivisionError` in Python when the configured weights sum to zero, so
the embedding returns `Except.error "division by zero"` (the `str(e)` text
of that exception) in that case. -/
def calculateGrade (cfg : Config) (sub : StudentSubmission)
    (aiResult : Option AIDetectionResult) : Except String GradingResult :=
  let flagged := integrityFlagged aiResult
  let scores := lateAdjustedScores cfg.late_penalty sub.late_submission
      (detectionAdjustedScores cfg.fail_on_detection aiResult)
  let totalWeight := (cfg.criteria.map Prod.snd).sum
  if totalWeight = 0 then Except.error "division by zero"
  else
    let overall :=
      (scores.map (fun p => p.2 * (dictGet cfg.criteria p.1 / totalWeight))).sum
    Except.ok
      { student_id := sub.student_id
        student_name := sub.student_name
        ai_detection := aiResult
        overall_score := overall
        grade_letter := scoreToLetterGrade overall
        criteria_scores := scores
        feedback := generateFeedback cfg sub aiResult scores overall
        requires_manual_review := flagged
        academic_integrity_flag := flagged }

/-- The synthetic failing result built in the `except` branch of
`process_submission`. -/
def syntheticFailure (sub : StudentSubmission) (errMsg : String) : GradingResult where
  student_id := sub.student_id
  student_name := sub.student_name
  ai_detection := none
  overall_score := 0
  grade_letter := "F"
  criteria_scores := []
  feedback := "Processing failed: " ++ errMsg
  requires_manual_review := true
  academic_integrity_flag := false

/-- `run_ai_detection`: with detection disabled it returns no result without
invoking the detector; otherwise the external detector's outcome — a parsed
result on success, or `None` on timeout, missing output or parse failure —
is supplied by the environment (`detectorOutcome`). -/
def runAIDetection (cfg : Config)
    (detectorOutcome : Option AIDetectionResult) : Option AIDetectionResult :=
  if cfg.detection_enabled then detectorOutcome else none

/-- `process_submission`: runs detection then grading inside a `try` block;
any exception — an environment-injected one (`injectedError`) or one raised
inside `calculate_grade` — is caught and converted to the synthetic failing
result. -/
def processSubmission (cfg : Config) (sub : StudentSubmission)
    (detectorOutcome : Option AIDetectionResult)
    (injectedError : Option String) : GradingResult :=
  match injectedError with
  | some msg => syntheticFailure sub msg
  | none =>
    match calculateGrade cfg sub (runAIDetection cfg detectorOutcome) with
    | Except.ok r => r
    | Except.error msg => syntheticFailure sub msg

/-- `process_all_submissions`: one task per submission, each task's outcome
determined by the environment `env` (detector outcome and optional injected
exception).  `as_completed` collects results in task-completion order; the
completion order is abstracted to submission order here, which affects no
counting or membership property. -/
def processAllSubmissions (cfg : Config) (subs : List StudentSubmission)
    (env : StudentSubmission → Option AIDetectionResult × Option String) :
    List GradingResult :=
  subs.map (fun s => processSubmission cfg s (env s).1 (env s).2)

/-- A sample non-late submission used to instantiate theorems. -/
def sampleSub : StudentSubmission where
  student_id := "s001_doe_jane"
  student_name := "doe jane"
  submission_path := "./submissions/s001_doe_jane"
  submission_time := none
  late_submission := false

/-- A detection result flagged as AI-generated with the given confidence. -/
def flaggedDet (c : ℚ) : AIDetectionResult where
  is_ai_generated := true
  confidence_score := c
  risk_level := "LOW"
  patterns_detected := 0
  high_confidence_patterns := 0
  analysis_time := 0
  warnings := []

/-- A detection result present but not flagged, with the given confidence. -/
def cleanDet (c : ℚ) : AIDetectionResult where
  is_ai_generated := false
  confidence_score := c
  risk_level := "LOW"
  patterns_detected := 0
  high_confidence_patterns := 0
  analysis_time := 0
  warnings := []

/-- Extracts the result from a successful `calculateGrade` call (the error
branch is a placeholder never used by the theorems below). -/
def okResult (e : Except String GradingResult) : GradingResult :=
  match e with
  | Except.ok r => r
  | Except.error msg =>
    syntheticFailure
      { student_id := "", student_name := "", submission_path := "",
        submission_time := none, late_submission := false } msg

/-- Removes every entry with the given key. -/
def removeKey (d : List (String × ℚ)) (k : String) : List (String × ℚ) :=
  d.filter (fun p => !(p.1 == k))


/-- JSON-like document tree, the value universe of `_load_config` /
`_deep_merge`: scalars, arrays, and string-keyed mappings. -/
inductive Tree where
  | num (n : ℚ)
  | str (s : String)
  | bool (b : Bool)
  | null
  | arr (elems : List Tree)
  | node (fields : List (String × Tree))

mutual
/-- The per-key decision of `_deep_merge`: when both the present base value
and the override value are mappings they are merged recursively, otherwise
the override value replaces the base value wholesale. -/
def mergeTree : Tree → Tree → Tree
  | Tree.node bf, Tree.node uf => Tree.node (mergeFields bf uf)
  | _, u => u
termination_by _ u => sizeOf u

/-- `_deep_merge`: walks the override's keys in order; an existing key keeps
its position in the base (in-place dict assignment), a new key is appended. -/
def mergeFields : List (String × Tree) → List (String × Tree) →
    List (String × Tree)
  | base, [] => base
  | base, (k, v) :: rest =>
    mergeFields
      (setKey base k
        (match lookupKey base k with
         | some bv => mergeTree bv v
         | none => v))
      rest
termination_by _ l => sizeOf l
end

mutual
/-- Does every key of the first tree, at every nesting level, still appear
along the same path in the second tree?  This encodes claim C3's "the
resolved configuration still contains every key (at every nesting level)
of the default tree". -/
def deepKeysSubset : Tree → Tree → Bool
  | Tree.node bf, Tree.node rf => deepFieldsSubset bf rf
  | Tree.node _, _ => false
  | _, _ => true
termination_by t _ => sizeOf t

def deepFieldsSubset : List (String × Tree) → List (String × Tree) → Bool
  | [], _ => true
  | (k, bv) :: rest, rf =>
    (match lookupKey rf k with
     | some rv => deepKeysSubset bv rv
     | none => false) && deepFieldsSubset rest rf
termination_by l _ => sizeOf l
end

/-- The top-level fields of the hard-coded `default_config` dictionary. -/
def defaultConfigFields : List (String × Tree) :=
  [("ai_detection", Tree.node
      [("enabled", Tree.bool true), ("threshold", Tree.num (3/4)),
       ("analyzers", Tree.str "git,documentation"),
       ("fail_on_detection", Tree.bool false),
       ("include_in_report", Tree.bool true)]),
   ("grading", Tree.node
      [("system", Tree.str "letter"), ("max_score", Tree.num 100),
       ("passing_threshold", Tree.num 70),
       ("criteria", Tree.node
          [("correctness", Tree.num 40), ("code_quality", Tree.num 25),
           ("documentation", Tree.num 15), ("testing", Tree.num 10),
           ("creativity", Tree.num 10)])]),
   ("assignment", Tree.node
      [("title", Tree.str "Programming Assignment"),
       ("difficulty", Tree.str "mid"), ("type", Tree.str "take-home"),
       ("late_penalty", Tree.num 10)]),
   ("processing", Tree.node
      [("parallel_workers", Tree.num 4), ("timeout_seconds", Tree.num 300)]),
   ("output", Tree.node
      [("results_dir", Tree.str "./grading-results"),
       ("reports_dir", Tree.str "./grading-reports"),
       ("individual_feedback", Tree.bool true),
       ("summary_report", Tree.bool true),
       ("csv_export", Tree.bool true)])]

/-- The `default_config` dictionary as a tree. -/
def defaultConfigTree : Tree := Tree.node defaultConfigFields

/-- `_load_config`: deep-merges an optional user override document onto the
default configuration; a missing or unreadable override file leaves the
defaults untouched. -/
def loadConfig (userConfig : Option Tree) : Tree :=
  match userConfig with
  | some u => mergeTree defaultConfigTree u
  | none => defaultConfigTree


/-- A CSV cell value: string, number, or boolean. -/
inductive CsvVal where
  | s (v : String)
  | q (v : ℚ)
  | b (v : Bool)
deriving DecidableEq

/-- The fixed leading CSV columns of `_generate_csv_export`. -/
def fixedFieldnames : List String :=
  ["student_id", "student_name", "overall_score", "grade_letter",
   "ai_detected", "ai_confidence", "ai_risk_level",
   "requires_manual_review", "academic_integrity_flag"]

/-- The CSV fieldnames: the fixed columns plus, when any results exist, one
column per criterion key of the first result. -/
def csvFieldnames (results : List GradingResult) : List String :=
  match results with
  | [] => fixedFieldnames
  | r :: _ => fixedFieldnames ++ r.criteria_scores.map Prod.fst

/-- The fixed cells of the row dict built for one result, with the defaults
used when detection is absent (`False`/`0`/`"N/A"`). -/
def csvFixedRow (r : GradingResult) : List (String × CsvVal) :=
  [("student_id", CsvVal.s r.student_id),
   ("student_name", CsvVal.s r.student_name),
   ("overall_score", CsvVal.q r.overall_score),
   ("grade_letter", CsvVal.s r.grade_letter),
   ("ai_detected", CsvVal.b (match r.ai_detection with
      | some a => a.is_ai_generated
      | none => false)),
   ("ai_confidence", CsvVal.q (match r.ai_detection with
      | some a => a.confidence_score
      | none => 0)),
   ("ai_risk_level", CsvVal.s (match r.ai_detection with
      | some a => a.risk_level
      | none => "N/A")),
   ("requires_manual_review", CsvVal.b r.requires_manual_review),
   ("academic_integrity_flag", CsvVal.b r.academic_integrity_flag)]

/-- Python `dict.update`: each update entry overwrites an existing key in
place or is appended at the end. -/
def dictUpdate (row upd : List (String × CsvVal)) : List (String × CsvVal) :=
  upd.foldl (fun acc p => setKey acc p.1 p.2) row

/-- The complete row dict for one result:
`row.update(result.criteria_scores)`. -/
def csvRow (r : GradingResult) : List (String × CsvVal) :=
  dictUpdate (csvFixedRow r)
    (r.criteria_scores.map (fun p => (p.1, CsvVal.q p.2)))

/-- `csv.DictWriter.writerow` with the default `extrasaction='raise'`:
raises `ValueError` when the row dict has a key outside the fieldnames,
else emits one cell per fieldname (an absent key becomes the empty
restval, modelled as `none`). -/
def writeRow (fieldnames : List String) (row : List (String × CsvVal)) :
    Except String (List (Option CsvVal)) :=
  if row.all (fun p => fieldnames.contains p.1) then
    Except.ok (fieldnames.map (fun f => lookupKey row f))
  else Except.error "ValueError"

/-- `_generate_csv_export`: the header from `csvFieldnames`, then one row
per result, aborting with the writer's `ValueError` if any row fails. -/
def generateCsvExport (results : List GradingResult) :
    Except String (List String × List (List (Option CsvVal))) :=
  match results.mapM (fun r => writeRow (csvFieldnames results) (csvRow r)) with
  | Except.ok rows => Except.ok (csvFieldnames results, rows)
  | Except.error e => Except.error e

/-- The file-extension allow-list of `_has_code_files`. -/
def codeExtensions : List String :=
  [".py", ".js", ".ts", ".java", ".cpp", ".c", ".go", ".rb", ".php", ".cs"]

/-- A directory entry seen during discovery: its name, whether it is a
directory, the suffixes of the files under it, and its modification time
(the directory path is rendered by its name in this model). -/
structure StudentDir where
  name : String
  isDir : Bool
  fileSuffixes : List String
  mtime : Option Nat

/-- Python `str.lower()` as applied to file extensions (character-wise
ASCII case folding). -/
def lowerStr (s : String) : String := String.mk (s.data.map Char.toLower)

/-- `_has_code_files`: some file suffix, lower-cased, is in the allow-list. -/
def hasCodeFiles (d : StudentDir) : Bool :=
  d.fileSuffixes.any (fun s => codeExtensions.contains (lowerStr s))

/-- `_extract_student_name`: replace `_`/`-` by spaces, split, and join all
tokens after the first; degenerate to the full name below two tokens. -/
def extractStudentName (dirName : String) : String :=
  let parts := (((dirName.replace "_" " ").replace "-" " ").splitOn " ").filter
    (fun t => t != "")
  if parts.length ≥ 2 then " ".intercalate (parts.drop 1) else dirName

/-- `_is_late_submission`: a stub that always evaluates false. -/
def isLateSubmission (_submissionTime : Option Nat) : Bool := false

/-- `discover_submissions`: `none` for the root models a missing directory
(`FileNotFoundError` is raised); otherwise non-directories and directories
without code files are skipped and the remaining entries become
submissions. -/
def discoverSubmissions (root : Option (List StudentDir)) :
    Except String (List StudentSubmission) :=
  match root with
  | none => Except.error "FileNotFoundError: Submissions directory not found"
  | some dirs => Except.ok (dirs.filterMap (fun d =>
      if d.isDir && hasCodeFiles d then
        some { student_id := d.name
               student_name := extractStudentName d.name
               submission_path := d.name
               submission_time := d.mtime
               late_submission := isLateSubmission d.mtime }
      else none))

/-- The observable outcome of one `run_pipeline` call: the exception it
re-raises if any, the results it graded, and whether report generation
ran. -/
structure PipelineRun where
  raisedError : Option String
  graded : List GradingResult
  reportsGenerated : Bool

/-- `run_pipeline`: a discovery exception is logged and re-raised; zero
discovered submissions logs an error and returns early — before grading
and before any report generation; otherwise every submission is processed
and the reports are generated. -/
def runPipeline (cfg : Config) (root : Option (List StudentDir))
    (env : StudentSubmission → Option AIDetectionResult × Option String) :
    PipelineRun :=
  match discoverSubmissions root with
  | Except.error msg =>
    { raisedError := some msg, graded := [], reportsGenerated := false }
  | Except.ok subs =>
    if subs.isEmpty then
      { raisedError := none, graded := [], reportsGenerated := false }
    else
      { raisedError := none
        graded := processAllSubmissions cfg subs env
        reportsGenerated := true }

/-- A directory entry containing no code files, rejected by discovery. -/
def notesDir : StudentDir where
  name := "notes"
  isDir := true
  fileSuffixes := [".txt"]
  mtime := none

/-- A second sample submission, used for CSV counterexamples. -/
def subB : StudentSubmission where
  student_id := "s002_roe_sam"
  student_name := "roe sam"
  submission_path := "./submissions/s002_roe_sam"
  submission_time := none
  late_submission := false

/-- The grading result `calculate_grade` produces for a clean, non-late
submission under the default configuration, written out literally (the
criteria scores are the unpenalized base scores). -/
def cleanResultB : GradingResult where
  student_id := "s002_roe_sam"
  student_name := "roe sam"
  ai_detection := none
  overall_score := 165/2
  grade_letter := "B-"
  criteria_scores := baseScoresInit
  feedback := ""
  requires_manual_review := false
  academic_integrity_flag := false

/-- The error message of a failed computation, if any. -/
def errorOf {α : Type} : Except String α → Option String
  | Except.error m => some m
  | Except.ok _ => none

/-! ### Helper lemmas -/

@[simp] theorem dictGet_nil (k : String) : dictGet [] k = 0 := rfl

@[simp] theorem dictGet_cons (q : String × ℚ) (rest : List (String × ℚ))
    (k : String) :
    dictGet (q :: rest) k = if q.1 == k then q.2 else dictGet rest k := by
  by_cases h : q.1 == k <;> simp [dictGet, lookupKey, h]

/-- Unfolds a successful `calculateGrade` call into its field values. -/
theorem calculateGrade_ok_fields (cfg : Config) (sub : StudentSubmission)
    (det : Option AIDetectionResult) (r : GradingResult)
    (h : calculateGrade cfg sub det = Except.ok r) :
    r.student_id = sub.student_id ∧
    r.criteria_scores = lateAdjustedScores cfg.late_penalty sub.late_submission
        (detectionAdjustedScores cfg.fail_on_detection det) ∧
    r.overall_score =
      ((lateAdjustedScores cfg.late_penalty sub.late_submission
          (detectionAdjustedScores cfg.fail_on_detection det)).map
        (fun p => p.2 *
          (dictGet cfg.criteria p.1 / (cfg.criteria.map Prod.snd).sum))).sum ∧
    r.requires_manual_review = integrityFlagged det ∧
    r.academic_integrity_flag = integrityFlagged det ∧
    (cfg.criteria.map Prod.snd).sum ≠ 0 := by
  unfold calculateGrade at h
  by_cases hw : (cfg.criteria.map Prod.snd).sum = 0
  · simp [hw] at h
  · simp only [hw, if_neg, if_false, ite_false, Except.ok.injEq] at h
    subst h
    exact ⟨rfl, rfl, rfl, rfl, rfl, hw⟩

/-- When the configured weights do not sum to zero, `calculateGrade`
succeeds, and `okResult` names its result. -/
theorem calculateGrade_eq_ok (cfg : Config) (sub : StudentSubmission)
    (det : Option AIDetectionResult)
    (hw : (cfg.criteria.map Prod.snd).sum ≠ 0) :
    calculateGrade cfg sub det =
      Except.ok (okResult (calculateGrade cfg sub det)) := by
  simp only [calculateGrade, okResult, hw, if_false, ite_false]

/-- `processSubmission` never changes the student id. -/
theorem processSubmission_student_id (cfg : Config) (sub : StudentSubmission)
    (det : Option AIDetectionResult) (inj : Option String) :
    (processSubmission cfg sub det inj).student_id = sub.student_id := by
  unfold processSubmission
  cases inj with
  | some msg => rfl
  | none =>
    cases h : calculateGrade cfg sub (runAIDetection cfg det) with
    | ok r => exact (calculateGrade_ok_fields _ _ _ _ h).1
    | error msg => rfl


/-- Entries of a dictionary with nonnegative values have nonnegative lookups. -/
theorem dictGet_nonneg (d : List (String × ℚ)) (hd : ∀ p ∈ d, 0 ≤ p.2)
    (k : String) : 0 ≤ dictGet d k := by
  induction d with
  | nil => simp
  | cons q rest ih =>
    rw [dictGet_cons]
    by_cases h : q.1 == k
    · rw [if_pos h]
      exact hd q (List.mem_cons_self q rest)
    · rw [if_neg h]
      exact ih (fun p hp => hd p (List.mem_cons_of_mem q hp))

theorem removeKey_nonneg (d : List (String × ℚ)) (k : String)
    (hd : ∀ p ∈ d, 0 ≤ p.2) : ∀ p ∈ removeKey d k, 0 ≤ p.2 :=
  fun p hp => hd p (List.mem_of_mem_filter hp)

theorem dictGet_removeKey (d : List (String × ℚ)) (k k' : String)
    (hne : k' ≠ k) : dictGet (removeKey d k) k' = dictGet d k' := by
  induction d with
  | nil => rfl
  | cons q rest ih =>
    by_cases h : q.1 == k
    · have hq : q.1 = k := by simpa using h
      have hk' : ¬(q.1 == k') := by
        simp only [hq, beq_iff_eq]
        exact fun he => hne he.symm
      simp only [removeKey, List.filter_cons, h, Bool.not_true, if_false,
        ite_false, Bool.false_eq_true] at *
      rw [dictGet_cons, if_neg hk']
      exact ih
    · simp only [removeKey, List.filter_cons, h, Bool.not_false, if_true,
        ite_true, Bool.false_eq_true] at *
      rw [dictGet_cons, dictGet_cons]
      by_cases h' : q.1 == k'
      · rw [if_pos h', if_pos h']
      · rw [if_neg h', if_neg h']
        exact ih

theorem sum_removeKey_le (d : List (String × ℚ)) (k : String)
    (hd : ∀ p ∈ d, 0 ≤ p.2) :
    ((removeKey d k).map Prod.snd).sum ≤ (d.map Prod.snd).sum := by
  induction d with
  | nil => exact le_refl _
  | cons q rest ih =>
    have hq := hd q (List.mem_cons_self q rest)
    have hrest : ∀ p ∈ rest, 0 ≤ p.2 :=
      fun p hp => hd p (List.mem_cons_of_mem q hp)
    by_cases h : q.1 == k
    · simp only [removeKey, List.filter_cons, h, Bool.not_true, if_false,
        ite_false, Bool.false_eq_true] at *
      simp only [List.map_cons, List.sum_cons]
      linarith [ih hrest]
    · simp only [removeKey, List.filter_cons, h, Bool.not_false, if_true,
        ite_true] at *
      simp only [List.map_cons, List.sum_cons]
      linarith [ih hrest]

theorem dictGet_add_removeKey_le (d : List (String × ℚ)) (k : String)
    (hd : ∀ p ∈ d, 0 ≤ p.2) :
    dictGet d k + ((removeKey d k).map Prod.snd).sum ≤ (d.map Prod.snd).sum := by
  induction d with
  | nil => simp [removeKey]
  | cons q rest ih =>
    have hq := hd q (List.mem_cons_self q rest)
    have hrest : ∀ p ∈ rest, 0 ≤ p.2 :=
      fun p hp => hd p (List.mem_cons_of_mem q hp)
    by_cases h : q.1 == k
    · rw [dictGet_cons, if_pos h]
      simp only [removeKey, List.filter_cons, h, Bool.not_true, if_false,
        ite_false, Bool.false_eq_true]
      simp only [List.map_cons, List.sum_cons]
      have := sum_removeKey_le rest k hrest
      simp only [removeKey] at this
      linarith
    · rw [dictGet_cons, if_neg h]
      simp only [removeKey, List.filter_cons, h, Bool.not_false, if_true,
        ite_true]
      simp only [List.map_cons, List.sum_cons]
      have := ih hrest
      simp only [removeKey] at this
      linarith

/-- Summing the lookups of distinct keys never exceeds the total weight of a
nonnegatively-weighted dictionary. -/
theorem sum_dictGet_le (ks : List String) (hks : ks.Nodup)
    (d : List (String × ℚ)) (hd : ∀ p ∈ d, 0 ≤ p.2) :
    (ks.map (dictGet d)).sum ≤ (d.map Prod.snd).sum := by
  induction ks generalizing d with
  | nil =>
    simp only [List.map_nil, List.sum_nil]
    apply List.sum_nonneg
    intro x hx
    obtain ⟨p, hp, rfl⟩ := List.mem_map.1 hx
    exact hd p hp
  | cons k ks ih =>
    obtain ⟨hk, hnd⟩ := List.nodup_cons.1 hks
    have hmap : ks.map (dictGet d) = ks.map (dictGet (removeKey d k)) := by
      apply List.map_congr_left
      intro a ha
      exact (dictGet_removeKey d k a (fun he => hk (he ▸ ha))).symm
    rw [List.map_cons, List.sum_cons, hmap]
    have h1 := ih hnd (removeKey d k) (removeKey_nonneg d k hd)
    have h2 := dictGet_add_removeKey_le d k hd
    linarith

theorem baseScores_bound : ∀ p ∈ baseScoresInit, 0 ≤ p.2 ∧ p.2 ≤ 100 := by
  norm_num [baseScoresInit]

theorem map_scale_bound (S : List (String × ℚ)) (c : ℚ)
    (hS : ∀ p ∈ S, 0 ≤ p.2 ∧ p.2 ≤ 100) (hc0 : 0 ≤ c) (hc1 : c ≤ 1) :
    ∀ p ∈ S.map (fun q => (q.1, q.2 * c)), 0 ≤ p.2 ∧ p.2 ≤ 100 := by
  intro p hp
  obtain ⟨q, hq, rfl⟩ := List.mem_map.1 hp
  obtain ⟨h0, h1⟩ := hS q hq
  refine ⟨mul_nonneg h0 hc0, ?_⟩
  calc q.2 * c ≤ q.2 * 1 := by nlinarith
    _ ≤ 100 := by linarith

/-- Bound for the scores after the AI-detection penalty: with a nonnegative
detector confidence, every adjusted score stays in `[0, 100]`. -/
theorem detectionAdjusted_bound (fod : Bool) (det : Option AIDetectionResult)
    (hconf : ∀ d, det = some d → 0 ≤ d.confidence_score) :
    ∀ p ∈ detectionAdjustedScores fod det, 0 ≤ p.2 ∧ p.2 ≤ 100 := by
  cases det with
  | none => simpa [detectionAdjustedScores] using baseScores_bound
  | some d =>
    cases hf : d.is_ai_generated with
    | false => simpa [detectionAdjustedScores, hf] using baseScores_bound
    | true =>
      cases fod with
      | true =>
        simp only [detectionAdjustedScores, hf, if_true, ite_true]
        intro p hp
        obtain ⟨q, hq, rfl⟩ := List.mem_map.1 hp
        norm_num
      | false =>
        simp only [detectionAdjustedScores, hf, if_true, ite_true, if_false,
          ite_false, Bool.false_eq_true]
        have hc := hconf d rfl
        apply map_scale_bound _ _ baseScores_bound
        · have := min_le_left (1/2 : ℚ) d.confidence_score
          linarith
        · have : (0:ℚ) ≤ min (1/2 : ℚ) d.confidence_score :=
            le_min (by norm_num) hc
          linarith

/-- Bound for the scores after the late penalty. -/
theorem lateAdjusted_bound (lp : ℚ) (late : Bool) (S : List (String × ℚ))
    (hS : ∀ p ∈ S, 0 ≤ p.2 ∧ p.2 ≤ 100)
    (hlp0 : 0 ≤ lp) (hlp1 : lp ≤ 100) :
    ∀ p ∈ lateAdjustedScores lp late S, 0 ≤ p.2 ∧ p.2 ≤ 100 := by
  cases late with
  | false => simpa [lateAdjustedScores] using hS
  | true =>
    simp only [lateAdjustedScores, if_true, ite_true]
    apply map_scale_bound _ _ hS
    · linarith
    · linarith

/-- The penalty steps never change the criterion names. -/
theorem adjusted_keys (fod : Bool) (det : Option AIDetectionResult)
    (lp : ℚ) (late : Bool) :
    (lateAdjustedScores lp late (detectionAdjustedScores fod det)).map Prod.fst
      = baseScoresInit.map Prod.fst := by
  cases det with
  | none =>
    cases late <;>
      simp [detectionAdjustedScores, lateAdjustedScores, baseScoresInit]
  | some d =>
    cases hf : d.is_ai_generated <;> cases fod <;> cases late <;>
      simp [detectionAdjustedScores, lateAdjustedScores, hf, baseScoresInit]

/-! ### Claim C2 -/

/-- Claim C2 (amended): for every configuration with nonnegative criterion
weights and a late penalty in [0, 100], and every optional detection result
with nonnegative confidence, the overall score computed by `calculate_grade`
lies in [0, 100].  (The unamended claim, over arbitrary confidence and late
penalty, is refuted by the counterexample below.) -/
theorem c2_overall_score_in_range (cfg : Config) (sub : StudentSubmission)
    (det : Option AIDetectionResult) (r : GradingResult)
    (hw : ∀ p ∈ cfg.criteria, 0 ≤ p.2)
    (hlp0 : 0 ≤ cfg.late_penalty) (hlp1 : cfg.late_penalty ≤ 100)
    (hconf : ∀ d, det = some d → 0 ≤ d.confidence_score)
    (hok : calculateGrade cfg sub det = Except.ok r) :
    0 ≤ r.overall_score ∧ r.overall_score ≤ 100 := by
  obtain ⟨-, -, hov, -, -, hWne⟩ := calculateGrade_ok_fields _ _ _ _ hok
  have hW0 : 0 ≤ (cfg.criteria.map Prod.snd).sum := by
    apply List.sum_nonneg
    intro x hx
    obtain ⟨p, hp, rfl⟩ := List.mem_map.1 hx
    exact hw p hp
  have hWpos : 0 < (cfg.criteria.map Prod.snd).sum :=
    lt_of_le_of_ne hW0 (Ne.symm hWne)
  have hSb : ∀ p ∈ lateAdjustedScores cfg.late_penalty sub.late_submission
      (detectionAdjustedScores cfg.fail_on_detection det), 0 ≤ p.2 ∧ p.2 ≤ 100 :=
    lateAdjusted_bound _ _ _
      (detectionAdjusted_bound _ _ hconf) hlp0 hlp1
  rw [hov]
  constructor
  · apply List.sum_nonneg
    intro x hx
    obtain ⟨p, hp, rfl⟩ := List.mem_map.1 hx
    exact mul_nonneg (hSb p hp).1
      (div_nonneg (dictGet_nonneg cfg.criteria hw p.1) hW0)
  · have hle := List.sum_le_sum (l := lateAdjustedScores cfg.late_penalty
        sub.late_submission (detectionAdjustedScores cfg.fail_on_detection det))
      (f := fun p => p.2 * (dictGet cfg.criteria p.1 / (cfg.criteria.map Prod.snd).sum))
      (g := fun p => 100 * (dictGet cfg.criteria p.1 / (cfg.criteria.map Prod.snd).sum))
      (fun p hp => mul_le_mul_of_nonneg_right (hSb p hp).2
        (div_nonneg (dictGet_nonneg cfg.criteria hw p.1) hW0))
    have heq : ((lateAdjustedScores cfg.late_penalty sub.late_submission
          (detectionAdjustedScores cfg.fail_on_detection det)).map
        (fun p => 100 * (dictGet cfg.criteria p.1 / (cfg.criteria.map Prod.snd).sum))).sum
        = 100 / (cfg.criteria.map Prod.snd).sum *
          ((lateAdjustedScores cfg.late_penalty sub.late_submission
            (detectionAdjustedScores cfg.fail_on_detection det)).map
              (fun p => dictGet cfg.criteria p.1)).sum := by
      rw [← List.sum_map_mul_left]
      congr 1
      apply List.map_congr_left
      intro a ha
      ring
    have hkeys : ((lateAdjustedScores cfg.late_penalty sub.late_submission
          (detectionAdjustedScores cfg.fail_on_detection det)).map
            (fun p => dictGet cfg.criteria p.1)).sum
        ≤ (cfg.criteria.map Prod.snd).sum := by
      have hcomp : (lateAdjustedScores cfg.late_penalty sub.late_submission
            (detectionAdjustedScores cfg.fail_on_detection det)).map
              (fun p => dictGet cfg.criteria p.1)
          = ((lateAdjustedScores cfg.late_penalty sub.late_submission
              (detectionAdjustedScores cfg.fail_on_detection det)).map Prod.fst).map
                (dictGet cfg.criteria) := by
        rw [List.map_map]
        rfl
      rw [hcomp, adjusted_keys]
      have hnd : (baseScoresInit.map Prod.fst).Nodup := by decide
      exact sum_dictGet_le _ hnd cfg.criteria hw
    have hmul : 100 / (cfg.criteria.map Prod.snd).sum *
          ((lateAdjustedScores cfg.late_penalty sub.late_submission
            (detectionAdjustedScores cfg.fail_on_detection det)).map
              (fun p => dictGet cfg.criteria p.1)).sum
        ≤ 100 / (cfg.criteria.map Prod.snd).sum * (cfg.criteria.map Prod.snd).sum :=
      mul_le_mul_of_nonneg_left hkeys (by positivity)
    have hcancel : 100 / (cfg.criteria.map Prod.snd).sum *
        (cfg.criteria.map Prod.snd).sum = 100 :=
      div_mul_cancel₀ 100 (ne_of_gt hWpos)
    linarith [hle, heq ▸ hle]

/-- Claim C2 counterexample: a flagged detection result with confidence -1
(the code never checks the range) inflates every score by the factor
`1 - min(0.5, -1) = 2`, giving an overall score of 165 > 100. -/
theorem c2_overall_score_in_range_counterexample :
    (okResult (calculateGrade defaultConfig sampleSub
        (some (flaggedDet (-1))))).overall_score = 165 ∧
    ¬ ((165 : ℚ) ≤ 100) := by
  constructor
  · have h := calculateGrade_eq_ok defaultConfig sampleSub
      (some (flaggedDet (-1))) (by norm_num [defaultConfig])
    have hov := (calculateGrade_ok_fields _ _ _ _ h).2.2.1
    rw [hov]
    simp [lateAdjustedScores, detectionAdjustedScores, baseScoresInit,
      sampleSub, flaggedDet, defaultConfig, min_def]
    norm_num
  · norm_num

/-- Witness for the amended C2 at a flagged detection of confidence 0.95. -/
theorem c2_overall_score_in_range_witness :
    0 ≤ (okResult (calculateGrade defaultConfig sampleSub
        (some (flaggedDet (95/100))))).overall_score ∧
    (okResult (calculateGrade defaultConfig sampleSub
        (some (flaggedDet (95/100))))).overall_score ≤ 100 :=
  c2_overall_score_in_range defaultConfig sampleSub (some (flaggedDet (95/100)))
    (okResult (calculateGrade defaultConfig sampleSub (some (flaggedDet (95/100)))))
    (by norm_num [defaultConfig]) (by norm_num [defaultConfig])
    (by norm_num [defaultConfig])
    (by intro d hd; cases hd; norm_num [flaggedDet])
    (calculateGrade_eq_ok defaultConfig sampleSub (some (flaggedDet (95/100)))
      (by norm_num [defaultConfig]))

/-! ### Claim C1 -/

/-- Claim C1: for every list of discovered submissions and every combination
of per-submission outcomes (detection success, detection timeout/failure,
grading exception), `process_all_submissions` returns exactly one
`GradingResult` per input submission — same count, same student ids in
order — so no submission is ever dropped. -/
theorem c1_one_result_per_submission (cfg : Config)
    (subs : List StudentSubmission)
    (env : StudentSubmission → Option AIDetectionResult × Option String) :
    (processAllSubmissions cfg subs env).length = subs.length ∧
    (processAllSubmissions cfg subs env).map GradingResult.student_id =
      subs.map StudentSubmission.student_id := by
  constructor
  · simp [processAllSubmissions]
  · simp only [processAllSubmissions, List.map_map]
    exact List.map_congr_left (fun s _ => processSubmission_student_id cfg s _ _)

/-! ### Claim C8 -/

/-- Claim C8: a submission whose grading raises an exception — injected by
the environment or raised inside `calculate_grade` — yields the synthetic
failing result: score 0, grade "F", manual review required, and feedback
text explaining the failure, instead of propagating the exception. -/
theorem c8_exception_gives_synthetic_failure :
    (∀ (cfg : Config) (sub : StudentSubmission)
       (det : Option AIDetectionResult) (msg : String),
       (processSubmission cfg sub det (some msg)).overall_score = 0 ∧
       (processSubmission cfg sub det (some msg)).grade_letter = "F" ∧
       (processSubmission cfg sub det (some msg)).requires_manual_review = true ∧
       (processSubmission cfg sub det (some msg)).feedback =
         "Processing failed: " ++ msg) ∧
    (∀ (cfg : Config) (sub : StudentSubmission)
       (det : Option AIDetectionResult) (msg : String),
       calculateGrade cfg sub (runAIDetection cfg det) = Except.error msg →
       (processSubmission cfg sub det none).overall_score = 0 ∧
       (processSubmission cfg sub det none).grade_letter = "F" ∧
       (processSubmission cfg sub det none).requires_manual_review = true ∧
       (processSubmission cfg sub det none).feedback =
         "Processing failed: " ++ msg) := by
  constructor
  · intro cfg sub det msg
    exact ⟨rfl, rfl, rfl, rfl⟩
  · intro cfg sub det msg h
    simp only [processSubmission, h]
    exact ⟨rfl, rfl, rfl, rfl⟩

/-- Witness for C8: a configuration whose criterion weights sum to zero
makes `calculate_grade` raise `ZeroDivisionError`, and the submission
degrades to the synthetic failing result. -/
theorem c8_exception_gives_synthetic_failure_witness :
    (processSubmission { defaultConfig with criteria := [] } sampleSub none none).overall_score = 0 ∧
    (processSubmission { defaultConfig with criteria := [] } sampleSub none none).grade_letter = "F" ∧
    (processSubmission { defaultConfig with criteria := [] } sampleSub none none).requires_manual_review = true ∧
    (processSubmission { defaultConfig with criteria := [] } sampleSub none none).feedback =
      "Processing failed: " ++ "division by zero" :=
  c8_exception_gives_synthetic_failure.2
    { defaultConfig with criteria := [] } sampleSub none "division by zero" rfl

/-! ### Claim C9 -/

/-- Claim C9: every result the pipeline produces — from `calculate_grade`
on any input or from the synthetic-failure path — satisfies: if
`academic_integrity_flag` is true then `requires_manual_review` is true. -/
theorem c9_integrity_flag_implies_manual_review :
    (∀ (cfg : Config) (sub : StudentSubmission)
       (det : Option AIDetectionResult) (inj : Option String),
       (processSubmission cfg sub det inj).academic_integrity_flag = true →
       (processSubmission cfg sub det inj).requires_manual_review = true) ∧
    (∀ (cfg : Config) (sub : StudentSubmission)
       (det : Option AIDetectionResult) (r : GradingResult),
       calculateGrade cfg sub det = Except.ok r →
       r.academic_integrity_flag = true → r.requires_manual_review = true) := by
  have hcalc : ∀ (cfg : Config) (sub : StudentSubmission)
      (det : Option AIDetectionResult) (r : GradingResult),
      calculateGrade cfg sub det = Except.ok r →
      r.academic_integrity_flag = true → r.requires_manual_review = true := by
    intro cfg sub det r h hflag
    obtain ⟨-, -, -, hrev, hfl, -⟩ := calculateGrade_ok_fields cfg sub det r h
    rw [hrev, ← hfl, hflag]
  refine ⟨?_, hcalc⟩
  intro cfg sub det inj hflag
  unfold processSubmission at hflag ⊢
  cases inj with
  | some msg => rfl
  | none =>
    cases h : calculateGrade cfg sub (runAIDetection cfg det) with
    | ok r =>
      rw [h] at hflag
      exact hcalc _ _ _ _ h hflag
    | error msg => rfl

/-- Witness for C9 at a concrete flagged detection result. -/
theorem c9_integrity_flag_implies_manual_review_witness :
    (okResult (calculateGrade defaultConfig sampleSub
        (some (flaggedDet (95/100))))).requires_manual_review = true := by
  have hw : (defaultConfig.criteria.map Prod.snd).sum ≠ 0 := by
    norm_num [defaultConfig]
  have h := calculateGrade_eq_ok defaultConfig sampleSub
    (some (flaggedDet (95/100))) hw
  have hfl := (calculateGrade_ok_fields _ _ _ _ h).2.2.2.2.1
  exact c9_integrity_flag_implies_manual_review.2 _ _ _ _ h (by rw [hfl]; rfl)

/-! ### Claim C10 -/

/-- Claim C10: for a non-late submission with a detection result present
but not flagged, `calculate_grade` applies no penalty: the criteria scores
equal the base scores for every confidence value, and both booleans are
false. -/
theorem c10_unflagged_detection_has_no_effect (cfg : Config)
    (sub : StudentSubmission) (det : AIDetectionResult) (r : GradingResult)
    (hlate : sub.late_submission = false)
    (hflag : det.is_ai_generated = false)
    (hok : calculateGrade cfg sub (some det) = Except.ok r) :
    r.criteria_scores = baseScoresInit ∧
    r.academic_integrity_flag = false ∧
    r.requires_manual_review = false := by
  obtain ⟨-, hcs, -, hrev, hfl, -⟩ := calculateGrade_ok_fields cfg sub (some det) r hok
  refine ⟨?_, ?_, ?_⟩
  · rw [hcs]
    simp [lateAdjustedScores, detectionAdjustedScores, hlate, hflag]
  · rw [hfl]; simp [integrityFlagged, hflag]
  · rw [hrev]; simp [integrityFlagged, hflag]

/-- Witness for C10 at a concrete clean detection result of confidence 0.7. -/
theorem c10_unflagged_detection_has_no_effect_witness :
    (okResult (calculateGrade defaultConfig sampleSub (some (cleanDet (7/10))))).criteria_scores = baseScoresInit ∧
    (okResult (calculateGrade defaultConfig sampleSub (some (cleanDet (7/10))))).academic_integrity_flag = false ∧
    (okResult (calculateGrade defaultConfig sampleSub (some (cleanDet (7/10))))).requires_manual_review = false :=
  c10_unflagged_detection_has_no_effect defaultConfig sampleSub (cleanDet (7/10))
    (okResult (calculateGrade defaultConfig sampleSub (some (cleanDet (7/10)))))
    rfl rfl
    (calculateGrade_eq_ok defaultConfig sampleSub (some (cleanDet (7/10)))
      (by norm_num [defaultConfig]))

/-! ### Claim C3 -/
theorem setKey_keys_mem {α : Type} (d : List (String × α)) (k k' : String)
    (v : α) (h : k' ∈ d.map Prod.fst) :
    k' ∈ (setKey d k v).map Prod.fst := by
  induction d with
  | nil => simp at h
  | cons q rest ih =>
    simp only [setKey]
    by_cases hq : q.1 == k
    · rw [if_pos hq]
      simpa using h
    · rw [if_neg hq]
      simp only [List.map_cons, List.mem_cons] at h ⊢
      rcases h with h | h
      · exact Or.inl h
      · exact Or.inr (ih h)

theorem mergeFields_keys_mem :
    ∀ (upd base : List (String × Tree)) (k : String),
      k ∈ base.map Prod.fst → k ∈ (mergeFields base upd).map Prod.fst := by
  intro upd
  induction upd with
  | nil =>
    intro base k h
    rw [mergeFields]
    exact h
  | cons q rest ih =>
    obtain ⟨kq, vq⟩ := q
    intro base k h
    rw [mergeFields]
    exact ih _ k (setKey_keys_mem base kq k _ h)

/-- Claim C3 (amended): deep-merging merges nested mappings key-by-key and
lets non-mapping override values replace default values — merging
{a:{x:1,y:2}} with {a:{y:9,z:3}} yields {a:{x:1,y:9,z:3}} — and for every
override document every key of the mapping being merged survives at that
level.  (Keys nested below a mapping that the override replaces with a
non-mapping are lost, so the original "every key at every nesting level"
fails; see the counterexample.) -/
theorem c3_deep_merge_behaviour :
    (mergeTree
        (Tree.node [("a", Tree.node [("x", Tree.num 1), ("y", Tree.num 2)])])
        (Tree.node [("a", Tree.node [("y", Tree.num 9), ("z", Tree.num 3)])])
      = Tree.node [("a", Tree.node
          [("x", Tree.num 1), ("y", Tree.num 9), ("z", Tree.num 3)])]) ∧
    ∀ (upd base : List (String × Tree)) (k : String),
      k ∈ base.map Prod.fst → k ∈ (mergeFields base upd).map Prod.fst := by
  constructor
  · simp [mergeTree, mergeFields, setKey, lookupKey]
  · exact mergeFields_keys_mem

/-- Witness for the amended C3: the untouched top-level key "grading"
survives an override that replaces the "ai_detection" section. -/
theorem c3_deep_merge_behaviour_witness :
    "grading" ∈ (mergeFields defaultConfigFields
      [("ai_detection", Tree.num 5)]).map Prod.fst :=
  c3_deep_merge_behaviour.2 [("ai_detection", Tree.num 5)]
    defaultConfigFields "grading" (by simp [defaultConfigFields])

/-- Claim C3 counterexample: overriding the "ai_detection" section with the
scalar 5 removes every key nested under it, so the resolved configuration
does not contain every key of the default tree at every nesting level. -/
theorem c3_deep_merge_counterexample :
    deepKeysSubset defaultConfigTree
      (loadConfig (some (Tree.node [("ai_detection", Tree.num 5)]))) = false := by
  simp [deepKeysSubset, deepFieldsSubset, mergeTree, mergeFields, setKey,
    lookupKey, loadConfig, defaultConfigTree, defaultConfigFields]

/-! ### Claim C4 -/

/-- Concrete evaluation: confidence 0.3 turns the creativity base score 80
into 56 under the default configuration. -/
theorem creativity_score_conf03 :
    dictGet (okResult (calculateGrade defaultConfig sampleSub
      (some (flaggedDet (3/10))))).criteria_scores "creativity" = 56 := by
  have h := calculateGrade_eq_ok defaultConfig sampleSub (some (flaggedDet (3/10)))
    (by norm_num [defaultConfig])
  have hcs := (calculateGrade_ok_fields _ _ _ _ h).2.1
  rw [hcs]
  simp [lateAdjustedScores, detectionAdjustedScores, baseScoresInit,
    sampleSub, flaggedDet, defaultConfig, min_def]
  norm_num

/-- Concrete evaluation: confidence 0.9 (capped at 0.5) turns the creativity
base score 80 into 40 under the default configuration. -/
theorem creativity_score_conf09 :
    dictGet (okResult (calculateGrade defaultConfig sampleSub
      (some (flaggedDet (9/10))))).criteria_scores "creativity" = 40 := by
  have h := calculateGrade_eq_ok defaultConfig sampleSub (some (flaggedDet (9/10)))
    (by norm_num [defaultConfig])
  have hcs := (calculateGrade_ok_fields _ _ _ _ h).2.1
  rw [hcs]
  simp [lateAdjustedScores, detectionAdjustedScores, baseScoresInit,
    sampleSub, flaggedDet, defaultConfig, min_def]
  norm_num

/-- Claim C4: on a flagged detection result, `calculate_grade` with
`fail_on_detection` false scales every criterion score by
`(1 - min(0.5, confidence))` (stated for non-late submissions, as in the
claim's examples: confidence 0.3 turns the base score 80 into 56 and
confidence 0.9 into 40), and with `fail_on_detection` true zeroes every
criterion score regardless of confidence. -/
theorem c4_detection_penalty :
    (∀ (cfg : Config) (sub : StudentSubmission) (det : AIDetectionResult)
       (r : GradingResult),
       det.is_ai_generated = true → cfg.fail_on_detection = false →
       sub.late_submission = false →
       calculateGrade cfg sub (some det) = Except.ok r →
       r.criteria_scores = baseScoresInit.map
         (fun p => (p.1, p.2 * (1 - min (1/2 : ℚ) det.confidence_score)))) ∧
    (∀ (cfg : Config) (sub : StudentSubmission) (det : AIDetectionResult)
       (r : GradingResult),
       det.is_ai_generated = true → cfg.fail_on_detection = true →
       calculateGrade cfg sub (some det) = Except.ok r →
       ∀ p ∈ r.criteria_scores, p.2 = 0) ∧
    dictGet (okResult (calculateGrade defaultConfig sampleSub
      (some (flaggedDet (3/10))))).criteria_scores "creativity" = 56 ∧
    dictGet (okResult (calculateGrade defaultConfig sampleSub
      (some (flaggedDet (9/10))))).criteria_scores "creativity" = 40 := by
  refine ⟨?_, ?_, ?_, ?_⟩
  · intro cfg sub det r hflag hfail hlate hok
    obtain ⟨-, hcs, -⟩ := calculateGrade_ok_fields cfg sub (some det) r hok
    rw [hcs]
    simp [lateAdjustedScores, detectionAdjustedScores, hflag, hfail, hlate]
  · intro cfg sub det r hflag hfail hok p hp
    obtain ⟨-, hcs, -⟩ := calculateGrade_ok_fields cfg sub (some det) r hok
    rw [hcs] at hp
    simp only [detectionAdjustedScores, hflag, hfail, if_true, ite_true] at hp
    cases hl : sub.late_submission with
    | true =>
      rw [hl] at hp
      simp only [lateAdjustedScores, if_true, ite_true, List.map_map,
        List.mem_map, Function.comp] at hp
      obtain ⟨q, hq, hqe⟩ := hp
      subst hqe
      simp
    | false =>
      rw [hl] at hp
      simp only [lateAdjustedScores, Bool.false_eq_true, if_false, ite_false,
        List.mem_map] at hp
      obtain ⟨q, hq, hqe⟩ := hp
      subst hqe
      rfl
  · exact creativity_score_conf03
  · exact creativity_score_conf09

/-- Witness for C4 at confidence 0.3 under the default configuration. -/
theorem c4_detection_penalty_witness :
    (okResult (calculateGrade defaultConfig sampleSub
        (some (flaggedDet (3/10))))).criteria_scores =
      baseScoresInit.map
        (fun p => (p.1, p.2 * (1 - min (1/2 : ℚ) (flaggedDet (3/10)).confidence_score))) :=
  c4_detection_penalty.1 defaultConfig sampleSub (flaggedDet (3/10))
    (okResult (calculateGrade defaultConfig sampleSub (some (flaggedDet (3/10)))))
    rfl rfl rfl
    (calculateGrade_eq_ok defaultConfig sampleSub (some (flaggedDet (3/10)))
      (by norm_num [defaultConfig]))

/-! ### Claim C5 -/

/-- Claim C5: the letter-grade mapping uses the fixed breakpoints
97→A+, 93→A, 90→A-, 87→B+, 83→B, 80→B-, 77→C+, 73→C, 70→C-, 67→D+,
63→D, 60→D-, else F, each bracket inclusive of its lower bound; in
particular 96.99→A, 97.0→A+, 59.99→F, 60.0→D-. -/
theorem c5_letter_grade_breakpoints :
    (scoreToLetterGrade (9699/100) = "A" ∧ scoreToLetterGrade 97 = "A+" ∧
     scoreToLetterGrade (5999/100) = "F" ∧ scoreToLetterGrade 60 = "D-") ∧
    ∀ s : ℚ,
      (97 ≤ s → scoreToLetterGrade s = "A+") ∧
      (93 ≤ s ∧ s < 97 → scoreToLetterGrade s = "A") ∧
      (90 ≤ s ∧ s < 93 → scoreToLetterGrade s = "A-") ∧
      (87 ≤ s ∧ s < 90 → scoreToLetterGrade s = "B+") ∧
      (83 ≤ s ∧ s < 87 → scoreToLetterGrade s = "B") ∧
      (80 ≤ s ∧ s < 83 → scoreToLetterGrade s = "B-") ∧
      (77 ≤ s ∧ s < 80 → scoreToLetterGrade s = "C+") ∧
      (73 ≤ s ∧ s < 77 → scoreToLetterGrade s = "C") ∧
      (70 ≤ s ∧ s < 73 → scoreToLetterGrade s = "C-") ∧
      (67 ≤ s ∧ s < 70 → scoreToLetterGrade s = "D+") ∧
      (63 ≤ s ∧ s < 67 → scoreToLetterGrade s = "D") ∧
      (60 ≤ s ∧ s < 63 → scoreToLetterGrade s = "D-") ∧
      (s < 60 → scoreToLetterGrade s = "F") := by
  constructor
  · exact ⟨by norm_num [scoreToLetterGrade], by norm_num [scoreToLetterGrade],
           by norm_num [scoreToLetterGrade], by norm_num [scoreToLetterGrade]⟩
  · intro s
    unfold scoreToLetterGrade
    split_ifs with h1 h2 h3 h4 h5 h6 h7 h8 h9 h10 h11 h12 <;>
      refine ⟨?_, ?_, ?_, ?_, ?_, ?_, ?_, ?_, ?_, ?_, ?_, ?_, ?_⟩ <;>
        (intro h; try obtain ⟨ha, hb⟩ := h) <;>
          first | rfl | linarith

/-- Witness for C5 at the concrete score 100. -/
theorem c5_letter_grade_breakpoints_witness : scoreToLetterGrade 100 = "A+" :=
  (c5_letter_grade_breakpoints.2 100).1 (by norm_num)

theorem mapM_loop_ok {α β : Type} (f : α → Except String β) :
    ∀ (l : List α) (acc : List β),
      (∀ a ∈ l, ∃ b, f a = Except.ok b) →
      ∃ bs, List.mapM.loop f l acc = Except.ok bs ∧
        bs.length = l.length + acc.length := by
  intro l
  induction l with
  | nil =>
    intro acc h
    exact ⟨acc.reverse, rfl, by simp⟩
  | cons a t ih =>
    intro acc h
    obtain ⟨b, hb⟩ := h a (List.mem_cons_self a t)
    obtain ⟨bs, hbs, hlen⟩ :=
      ih (b :: acc) (fun x hx => h x (List.mem_cons_of_mem a hx))
    refine ⟨bs, ?_, by simp at hlen ⊢; omega⟩
    show List.mapM.loop f (a :: t) acc = Except.ok bs
    simp only [List.mapM.loop, hb]
    exact hbs

theorem mapM_ok_length {α β : Type} (f : α → Except String β) (l : List α)
    (h : ∀ a ∈ l, ∃ b, f a = Except.ok b) :
    ∃ bs, l.mapM f = Except.ok bs ∧ bs.length = l.length := by
  obtain ⟨bs, hbs, hlen⟩ := mapM_loop_ok f l [] h
  exact ⟨bs, hbs, by simpa using hlen⟩

theorem writeRow_ok (fieldnames : List String)
    (row : List (String × CsvVal)) (h : ∀ p ∈ row, p.1 ∈ fieldnames) :
    writeRow fieldnames row =
      Except.ok (fieldnames.map (fun f => lookupKey row f)) := by
  unfold writeRow
  rw [if_pos]
  rw [List.all_eq_true]
  intro p hp
  exact List.elem_iff.mpr (h p hp)

theorem csvFixedRow_keys (r : GradingResult) :
    (csvFixedRow r).map Prod.fst = fixedFieldnames := rfl

theorem setKey_keys_cases {α : Type} (d : List (String × α)) (k k' : String)
    (v : α) (h : k' ∈ (setKey d k v).map Prod.fst) :
    k' ∈ d.map Prod.fst ∨ k' = k := by
  induction d with
  | nil =>
    simp only [setKey, List.map_cons, List.map_nil, List.mem_cons,
      List.not_mem_nil, or_false] at h
    exact Or.inr h
  | cons q rest ih =>
    simp only [setKey] at h
    by_cases hq : q.1 == k
    · rw [if_pos hq] at h
      simp only [List.map_cons, List.mem_cons] at h ⊢
      rcases h with h | h
      · exact Or.inl (Or.inl h)
      · exact Or.inl (Or.inr h)
    · rw [if_neg hq] at h
      simp only [List.map_cons, List.mem_cons] at h ⊢
      rcases h with h | h
      · exact Or.inl (Or.inl h)
      · rcases ih h with h' | h'
        · exact Or.inl (Or.inr h')
        · exact Or.inr h'

theorem dictUpdate_keys_cases (row upd : List (String × CsvVal)) (k : String)
    (h : k ∈ (dictUpdate row upd).map Prod.fst) :
    k ∈ row.map Prod.fst ∨ k ∈ upd.map Prod.fst := by
  induction upd generalizing row with
  | nil => exact Or.inl h
  | cons q rest ih =>
    simp only [dictUpdate, List.foldl_cons] at h
    rcases ih (setKey row q.1 q.2) h with h' | h'
    · rcases setKey_keys_cases row q.1 k q.2 h' with h'' | h''
      · exact Or.inl h''
      · exact Or.inr (by simp [h''])
    · exact Or.inr (by simp only [List.map_cons, List.mem_cons]; exact Or.inr h')

/-! ### Claim C6 -/

/-- Claim C6 (amended): for a non-empty result collection in which every
result's criteria keys appear among the first result's criteria keys (as in
a run where every submission grades normally, or every submission fails),
the CSV export has exactly one data row per result, and its dynamic
criteria columns are exactly the keys of the first result's criteria map.
(Without that restriction the claim fails: the `DictWriter` raises
`ValueError` on a row with keys outside the header — see the
counterexample.) -/
theorem c6_csv_rows (first : GradingResult) (rest : List GradingResult)
    (hkeys : ∀ r ∈ first :: rest, ∀ p ∈ r.criteria_scores,
        p.1 ∈ first.criteria_scores.map Prod.fst) :
    ∃ rows,
      generateCsvExport (first :: rest) =
        Except.ok (fixedFieldnames ++ first.criteria_scores.map Prod.fst,
          rows) ∧
      rows.length = (first :: rest).length := by
  have hall : ∀ r ∈ first :: rest, ∃ out,
      writeRow (csvFieldnames (first :: rest)) (csvRow r) = Except.ok out := by
    intro r hr
    refine ⟨_, writeRow_ok _ _ ?_⟩
    intro p hp
    have hmem : p.1 ∈ (csvRow r).map Prod.fst := List.mem_map_of_mem Prod.fst hp
    rcases dictUpdate_keys_cases _ _ _ hmem with hx | hx
    · rw [csvFixedRow_keys] at hx
      exact List.mem_append_left _ hx
    · apply List.mem_append_right
      rw [List.map_map] at hx
      obtain ⟨q, hq, hqe⟩ := List.mem_map.1 hx
      have : p.1 = q.1 := by simpa using hqe.symm
      rw [this]
      exact hkeys r hr q hq
  obtain ⟨rows, hrows, hlen⟩ := mapM_ok_length _ _ hall
  refine ⟨rows, ?_, hlen⟩
  unfold generateCsvExport
  rw [hrows]
  rfl

/-- Witness for the amended C6 with two identical clean results. -/
theorem c6_csv_rows_witness :
    ∃ rows,
      generateCsvExport [cleanResultB, cleanResultB] =
        Except.ok (fixedFieldnames ++
          cleanResultB.criteria_scores.map Prod.fst, rows) ∧
      rows.length = [cleanResultB, cleanResultB].length :=
  c6_csv_rows cleanResultB [cleanResultB] (by decide)

/-- Claim C6 counterexample: when the first result is the synthetic failing
result (empty criteria map) and a later result graded normally, the CSV
header has no criteria columns, the later row's criteria keys are extras,
and the `DictWriter` raises `ValueError` — the export does not contain one
row per result. -/
theorem c6_csv_rows_counterexample :
    errorOf (generateCsvExport
      [processSubmission defaultConfig sampleSub none (some "boom"),
       cleanResultB]) = some "ValueError" := by decide

/-! ### Claim C7 -/

/-- Claim C7 (amended): when discovery finds zero valid submissions,
`run_pipeline` stops before any grading and produces no report artifacts,
but by an early `return` — a normal completion, with no exception raised;
only a missing submissions directory raises a fatal error.  (The original
claim, that the empty-discovery outcome is a fatal `DiscoveryError`, is
refuted by the counterexample.) -/
theorem c7_zero_submissions_early_return :
    (∀ (cfg : Config) (dirs : List StudentDir)
       (env : StudentSubmission → Option AIDetectionResult × Option String),
       discoverSubmissions (some dirs) = Except.ok [] →
       runPipeline cfg (some dirs) env =
         { raisedError := none, graded := [], reportsGenerated := false }) ∧
    (∀ (cfg : Config)
       (env : StudentSubmission → Option AIDetectionResult × Option String),
       runPipeline cfg none env =
         { raisedError :=
             some "FileNotFoundError: Submissions directory not found",
           graded := [], reportsGenerated := false }) := by
  constructor
  · intro cfg dirs env h
    unfold runPipeline
    rw [h]
    rfl
  · intro cfg env
    rfl

/-- Witness for the amended C7 at an empty submissions directory. -/
theorem c7_zero_submissions_early_return_witness :
    runPipeline defaultConfig (some []) (fun _ => (none, none)) =
      { raisedError := none, graded := [], reportsGenerated := false } :=
  c7_zero_submissions_early_return.1 defaultConfig [] (fun _ => (none, none))
    rfl

/-- Claim C7 counterexample: a directory that exists but contains no valid
submission (one subdirectory without code files) makes the pipeline return
normally — no exception is raised (and no reports are generated), so the
empty-discovery outcome is not treated as a fatal error. -/
theorem c7_zero_submissions_counterexample :
    (runPipeline defaultConfig (some [notesDir])
      (fun _ => (none, none))).raisedError = none ∧
    (runPipeline defaultConfig (some [notesDir])
      (fun _ => (none, none))).reportsGenerated = false := by
  exact ⟨rfl, rfl⟩

end GradingPipeline
